import Mathlib

/-!
Verification of `pyarubaimc/objects.py` (classes `IMCDev`, `IMCInterface`,
`IPScope`) against its specification.

The Python code is shallowly embedded: IPv4 addresses are natural numbers
below 2^32, the `ipaddress` standard-library behaviour used by the code
(`str` of an address, iteration over a network, parsing of dotted-quad
strings) is modelled explicitly, remote REST endpoints are modelled as
function-valued environment records, and each method becomes a pure
function returning its result together with the list of remote calls it
issues.
-/

/-- Decimal representation of a natural number as a list of characters
(the model of Python's `str` on a nonnegative `int`). -/
def decRepr (m : Nat) : List Char :=
  (Nat.repr m).data

/-- Model of Python's `str.split('.')` on a list of characters: splits at
every `'.'`, keeping empty components, and never returns an empty list. -/
def splitDot : List Char → List (List Char)
  | [] => [[]]
  | c :: cs =>
    if c = '.' then [] :: splitDot cs
    else (c :: (splitDot cs).headD []) :: (splitDot cs).tailD []

/-- Model of Python's `str(ip)` for an `ipaddress.IPv4Address`: the
dotted-decimal form `"a.b.c.d"` of the four octets, as a character list. -/
def pyStrIPv4 (n : Nat) : List Char :=
  decRepr (n / 16777216 % 256) ++
    ('.' :: (decRepr (n / 65536 % 256) ++
      ('.' :: (decRepr (n / 256 % 256) ++
        ('.' :: decRepr (n % 256))))))

/-- Numeric value of the dotted quad `a.b.c.d`. -/
def ipNum (a b c d : Nat) : Nat :=
  ((a * 256 + b) * 256 + c) * 256 + d

/-- Model of `ipaddress.ip_network`: a network is its network (base)
address together with its prefix length. -/
structure IPv4Network where
  base : Nat
  prefixlen : Nat
deriving DecidableEq, Repr

/-- Model of iterating a Python `IPv4Network`: all `2^(32 - prefixlen)`
addresses of the block in ascending order, network and broadcast
addresses included. -/
def networkAddrs (net : IPv4Network) : List Nat :=
  (List.range (2 ^ (32 - net.prefixlen))).map (fun i => net.base + i)

/-- Numeric value of digit characters read as a decimal number
(the model of Python's `int` parsing inside `ipaddress.ip_address`;
the post-3.9 leading-zero rejection is not needed by any claim). -/
def charsToNat? (cs : List Char) : Option Nat :=
  if cs ≠ [] ∧ cs.all Char.isDigit then
    some (cs.foldl (fun acc c => acc * 10 + (c.toNat - 48)) 0)
  else none

/-- Model of `ipaddress.ip_address` on a dotted-quad string: four
`'.'`-separated decimal components, each below 256; `none` models the
`ValueError` raised on anything else. -/
def parseIPv4 (s : String) : Option Nat :=
  match (splitDot s.data).mapM charsToNat? with
  | some [a, b, c, d] =>
    if a < 256 ∧ b < 256 ∧ c < 256 ∧ d < 256 then some (ipNum a b c d) else none
  | _ => none

/-- A host record of an IP scope; the code only reads the `'ip'` key
(`host['ip']`), the `name` field stands for the record's other keys. -/
structure Host where
  ip : String
  name : String
deriving DecidableEq, Repr

/-- The list comprehension
`[ipaddress.ip_address(host['ip']) for host in self.hosts]`:
parses every host's `ip` left to right, `none` modelling the
`ValueError` raised on the first unparseable entry. -/
def parseAllHosts : List Host → Option (List Nat)
  | [] => some []
  | h :: t =>
    match parseIPv4 h.ip, parseAllHosts t with
    | some p, some ps => some (p :: ps)
    | _, _ => none

/-- The `for ip in self.netaddr` loop body of `IPScope.nextfreeip`:
skip an address when `str(ip).split('.')[-1] == '0'`, return the first
remaining address not in `allocated_ips`, fall through to `None`
otherwise. -/
def nextfreeipLoop (allocated_ips : List Nat) : List Nat → Option Nat
  | [] => none
  | ip :: rest =>
    if (splitDot (pyStrIPv4 ip)).getLastD [] = ['0'] then
      nextfreeipLoop allocated_ips rest
    else if ip ∈ allocated_ips then
      nextfreeipLoop allocated_ips rest
    else some ip

/-- Body of `IPScope.nextfreeip` as a function of the two attributes it
reads (`self.netaddr`, `self.hosts`).  The outer `Option` models the
`ValueError` escaping if some host ip fails to parse; the inner
`Option Nat` is the method's return value (`none` = Python `None`). -/
def nextfreeipOn (net : IPv4Network) (hosts : List Host) : Option (Option Nat) :=
  match parseAllHosts hosts with
  | none => none
  | some allocated_ips => some (nextfreeipLoop allocated_ips (networkAddrs net))

/-- The scope detail record returned by `get_ip_scope_detail`.  The
optional `assignedIpScope` field models presence or absence of the
`'assignedIpScope'` key in the JSON record (`'assignedIpScope' in
self.details`); `startIp` and `endIp` are always present. -/
structure ScopeDetail where
  startIp : String
  endIp : String
  assignedIpScope : Option String
deriving DecidableEq, Repr

/-- Modelled from the spec: the remote scope endpoints used by
`IPScope.__init__` (`get_scope_id`, `get_ip_scope_detail`,
`get_ip_scope_hosts` live in `pyarubaimc.plat`, outside `objects.py`).
Each is a deterministic function of its key arguments; the `auth`/`url`
session arguments threaded through every call are elided. -/
structure ScopeEnv where
  get_scope_id : IPv4Network → Nat
  get_ip_scope_detail : Nat → ScopeDetail
  get_ip_scope_hosts : Nat → List Host

/-- The `IPScope` object: one field per attribute assigned in
`IPScope.__init__`.  `child = none` models the `self.child` attribute
not existing at all (the `if 'assignedIpScope' in self.details:` guard
not having fired); the code never assigns a null `child`. -/
structure IPScope where
  id : Nat
  details : ScopeDetail
  hosts : List Host
  auth : String
  url : String
  netaddr : IPv4Network
  startip : String
  endip : String
  child : Option String
deriving DecidableEq, Repr

/-- `IPScope.__init__`: resolves the scope id, fetches detail and hosts,
parses the network (the caller passes the already-parsed
`ipaddress.ip_network` value), re-fetches the detail record for
`startip`, `endip` and — when the `'assignedIpScope'` key is present in
`self.details` — for `child`. -/
def IPScope.init (env : ScopeEnv) (netaddr : IPv4Network) (auth url : String) : IPScope :=
  let id := env.get_scope_id netaddr
  let details := env.get_ip_scope_detail id
  { id := id
    details := details
    hosts := env.get_ip_scope_hosts id
    auth := auth
    url := url
    netaddr := netaddr
    startip := (env.get_ip_scope_detail id).startIp
    endip := (env.get_ip_scope_detail id).endIp
    child :=
      if (details.assignedIpScope).isSome then
        (env.get_ip_scope_detail id).assignedIpScope
      else none }

/-- Python attribute access `scope.child`: raises `AttributeError` when
the attribute was never assigned. -/
inductive AttrError where
  | attributeError
deriving DecidableEq, Repr

/-- Accessing the `child` attribute of a scope object: `AttributeError`
when the constructor's guard never assigned it. -/
def IPScope.getChild (s : IPScope) : Except AttrError String :=
  match s.child with
  | some c => Except.ok c
  | none => Except.error AttrError.attributeError

/-- The remote calls an `IPScope` method can issue. -/
inductive ScopeCall where
  | addScopeIp (hostipaddress name description : String) (scopeid : Nat)
  | deleteHostFromSegment (hostipaddress : String) (netaddr : IPv4Network)
  | getIpScopeHosts (scopeid : Nat)
deriving DecidableEq, Repr

/-- `IPScope.allocate_ip`: a single `add_scope_ip` call carrying the
host ip, name, description and this scope's resolved id; no attribute
of the object is touched and no validation of `hostipaddress` against
the scope's bounds happens before the call. -/
def IPScope.allocate_ip (s : IPScope) (hostipaddress name description : String) :
    IPScope × List ScopeCall :=
  (s, [ScopeCall.addScopeIp hostipaddress name description s.id])

/-- `IPScope.deallocate_ip`: a single `delete_host_from_segment` call
carrying the host ip and `self.netaddr` (the network address, not the
scope id); no attribute of the object is touched. -/
def IPScope.deallocate_ip (s : IPScope) (hostipaddress : String) :
    IPScope × List ScopeCall :=
  (s, [ScopeCall.deleteHostFromSegment hostipaddress s.netaddr])

/-- `IPScope.nextfreeip`: computes `nextfreeipOn` from the cached
`self.netaddr` and `self.hosts` attributes; the method reads no other
attribute, writes none, and issues no remote call. -/
def IPScope.nextfreeip (s : IPScope) : Option (Option Nat) × IPScope × List ScopeCall :=
  (nextfreeipOn s.netaddr s.hosts, s, [])

/-- Device detail record returned by `get_dev_details`. -/
structure DevDetails where
  ip : String
  sysDescription : String
  location : String
  contact : String
  typeName : String
  sysName : String
  statusDesc : String
  id : Nat
deriving DecidableEq, Repr

/-- Failure conditions of the remote endpoints. -/
inductive ImcError where
  | notFound
  | remoteError
deriving DecidableEq, Repr

/-- A VLAN record as returned by the VLAN endpoints. -/
structure VlanRec where
  vlanId : Nat
  vlanName : String
deriving DecidableEq, Repr

/-- A hardware-asset record; the code reads `name` and `serialNum`,
`assetOther` stands for the record's remaining keys. -/
structure AssetRec where
  name : String
  serialNum : String
  assetOther : String
deriving DecidableEq, Repr

/-- The `name`/`serialNum` pair `IMCDev.__init__` projects out of each
asset record. -/
structure SerialRec where
  name : String
  serialNum : String
deriving DecidableEq, Repr

/-- Modelled from the spec: the remote device endpoints consumed by
`IMCDev.__init__` (all live in `pyarubaimc.plat`, outside `objects.py`).
`get_dev_details` fails with `notFound` when the ip has no managed
device; the remaining reads are total here since no claim exercises
their failure.  Payloads the claims never inspect are opaque strings;
the `auth`/`url` session arguments are elided. -/
structure DevEnv where
  get_dev_details : String → Except ImcError DevDetails
  get_all_interface_details : String → List String
  get_dev_vlans_by_ip : String → List VlanRec
  get_device_access_interfaces : String → List String
  get_trunk_interfaces : String → List String
  get_dev_alarms : String → List String
  get_dev_asset_details : String → List AssetRec
  get_dev_latest_run_config : String → String
  get_dev_latest_start_config : String → String
  get_ip_mac_arp_list_by_ip : String → List String

/-- The `IMCDev` object: one field per attribute assigned in
`IMCDev.__init__`, in source order. -/
structure IMCDev where
  auth : String
  url : String
  dev_details : DevDetails
  ip : String
  description : String
  location : String
  contact : String
  type : String
  name : String
  status : String
  devid : Nat
  interfacelist : List String
  numinterface : Nat
  vlans : List VlanRec
  accessinterfaces : List String
  trunkinterfaces : List String
  alarm : List String
  numalarm : Nat
  assets : List AssetRec
  serials : List SerialRec
  runconfig : String
  startconfig : String
  ipmacarp : List String
deriving DecidableEq, Repr

/-- The attributes `IMCDev.__init__` assigns, in source order. -/
def imcdevAttrs : List String :=
  ["auth", "url", "dev_details", "ip", "description", "location", "contact",
   "type", "name", "status", "devid", "interfacelist", "numinterface", "vlans",
   "accessinterfaces", "trunkinterfaces", "alarm", "numalarm", "assets",
   "serials", "runconfig", "startconfig", "ipmacarp"]

/-- `IMCDev.__init__`: assigns `self.auth` and `self.url`, then calls
`get_dev_details`; if that lookup fails the exception propagates with
only those two attributes assigned, otherwise every remaining attribute
is populated from the endpoint reads.  The first component records which
attributes were assigned before the constructor finished or failed. -/
def IMCDev.init (env : DevEnv) (ip_address auth url : String) :
    List String × Except ImcError IMCDev :=
  match env.get_dev_details ip_address with
  | Except.error e => (["auth", "url"], Except.error e)
  | Except.ok d =>
    let interfacelist := env.get_all_interface_details d.ip
    let alarm := env.get_dev_alarms d.ip
    let assets := env.get_dev_asset_details d.ip
    (imcdevAttrs, Except.ok
      { auth := auth
        url := url
        dev_details := d
        ip := d.ip
        description := d.sysDescription
        location := d.location
        contact := d.contact
        type := d.typeName
        name := d.sysName
        status := d.statusDesc
        devid := d.id
        interfacelist := interfacelist
        numinterface := interfacelist.length
        vlans := env.get_dev_vlans_by_ip d.ip
        accessinterfaces := env.get_device_access_interfaces d.ip
        trunkinterfaces := env.get_trunk_interfaces d.ip
        alarm := alarm
        numalarm := alarm.length
        assets := assets
        serials := assets.map (fun a => { name := a.name, serialNum := a.serialNum })
        runconfig := env.get_dev_latest_run_config d.ip
        startconfig := env.get_dev_latest_start_config d.ip
        ipmacarp := env.get_ip_mac_arp_list_by_ip d.ip })

/-- Modelled from the spec: the remote VLAN table, keyed by the internal
device id; `create_dev_vlan` appends a record under its `devid` key and
`get_dev_vlans` reads the list back. -/
structure VlanWorld where
  table : Nat → List VlanRec

/-- Modelled from the spec: the VLAN create endpoint appends the new
record to the device's VLAN list. -/
def create_dev_vlan (vlanid : Nat) (vlan_name : String) (w : VlanWorld) (devid : Nat) :
    VlanWorld :=
  ⟨fun d => if d = devid then w.table d ++ [⟨vlanid, vlan_name⟩] else w.table d⟩

/-- Modelled from the spec: the VLAN read endpoint returns the device's
current VLAN list. -/
def get_dev_vlans (w : VlanWorld) (devid : Nat) : List VlanRec :=
  w.table devid

/-- The remote calls an `IMCDev` VLAN method can issue. -/
inductive DevCall where
  | createDevVlan (vlanid : Nat) (vlan_name : String) (devid : Nat)
  | getDevVlans (devid : Nat)
deriving DecidableEq, Repr

/-- `IMCDev.addvlan`: one `create_dev_vlan` call scoped to
`self.devid`; no attribute of the object is touched. -/
def IMCDev.addvlan (dev : IMCDev) (vlanid : Nat) (vlan_name : String) (w : VlanWorld) :
    IMCDev × VlanWorld × List DevCall :=
  (dev, create_dev_vlan vlanid vlan_name w dev.devid,
   [DevCall.createDevVlan vlanid vlan_name dev.devid])

/-- `IMCDev.getvlans`: re-reads the VLAN list with `devid=self.devid`
and overwrites `self.vlans`. -/
def IMCDev.getvlans (dev : IMCDev) (w : VlanWorld) : IMCDev × List DevCall :=
  ({ dev with vlans := get_dev_vlans w dev.devid }, [DevCall.getDevVlans dev.devid])

/-- An interface detail record as returned by `get_interface_details`. -/
structure InterfaceRecord where
  ifIndex : Nat
  phyAddress : String
  statusDesc : String
  adminStatusDesc : String
  ifDescription : String
  ifAlias : String
  mtu : Nat
  ifspeed : Nat
  lastChange : String
deriving DecidableEq, Repr

/-- Modelled from the spec: the remote per-interface state, keyed by
`(ifindex, devip)`; the up/down endpoints flip the administrative
status and `get_interface_details` reads the current record. -/
structure IfWorld where
  details : Nat → String → InterfaceRecord

/-- Modelled from the spec: `set_interface_down` puts the addressed
interface administratively down. -/
def set_interface_down (ifindex : Nat) (w : IfWorld) (devip : String) : IfWorld :=
  ⟨fun i d =>
    if i = ifindex ∧ d = devip then
      { w.details i d with adminStatusDesc := "Down" }
    else w.details i d⟩

/-- Modelled from the spec: `set_interface_up` puts the addressed
interface administratively up. -/
def set_interface_up (ifindex : Nat) (w : IfWorld) (devip : String) : IfWorld :=
  ⟨fun i d =>
    if i = ifindex ∧ d = devip then
      { w.details i d with adminStatusDesc := "Up" }
    else w.details i d⟩

/-- Modelled from the spec: `get_interface_details` reads the addressed
interface's current record. -/
def get_interface_details (ifindex : Nat) (w : IfWorld) (devip : String) : InterfaceRecord :=
  w.details ifindex devip

/-- The remote calls an `IMCInterface` method can issue;
`setInterfaceDown`/`setInterfaceUp` are the state-change calls,
`getInterfaceDetails` is a read. -/
inductive IfCall where
  | setInterfaceDown (ifindex : Nat) (devip : String)
  | setInterfaceUp (ifindex : Nat) (devip : String)
  | getInterfaceDetails (ifindex : Nat) (devip : String)
deriving DecidableEq, Repr

/-- The `IMCInterface` object: one field per attribute assigned in
`IMCInterface.__init__` (`self.status` is assigned twice there — from
the device record and then from the interface record — so the single
field holds the interface's `statusDesc`). -/
structure IMCInterface where
  auth : String
  url : String
  dev_details : DevDetails
  ip : String
  devid : Nat
  sysdescription : String
  location : String
  contact : String
  type : String
  sysname : String
  status : String
  interface_details : InterfaceRecord
  ifIndex : Nat
  macaddress : String
  adminstatus : String
  name : String
  description : String
  mtu : Nat
  speed : Nat
  accessinterfaces : List String
  pvid : Nat
  lastchange : String
deriving DecidableEq, Repr

/-- `IMCInterface.down`: one `set_interface_down` state-change call for
`self.ifIndex` scoped to `self.ip`, then a `get_interface_details`
re-read whose `adminStatusDesc` overwrites `self.adminstatus`; no other
attribute is touched. -/
def IMCInterface.down (i : IMCInterface) (w : IfWorld) :
    IMCInterface × IfWorld × List IfCall :=
  let w' := set_interface_down i.ifIndex w i.ip
  ({ i with adminstatus := (get_interface_details i.ifIndex w' i.ip).adminStatusDesc },
   w',
   [IfCall.setInterfaceDown i.ifIndex i.ip, IfCall.getInterfaceDetails i.ifIndex i.ip])

/-- `IMCInterface.up`: one `set_interface_up` state-change call for
`self.ifIndex` scoped to `self.ip`, then a `get_interface_details`
re-read whose `adminStatusDesc` overwrites `self.adminstatus`; no other
attribute is touched. -/
def IMCInterface.up (i : IMCInterface) (w : IfWorld) :
    IMCInterface × IfWorld × List IfCall :=
  let w' := set_interface_up i.ifIndex w i.ip
  ({ i with adminstatus := (get_interface_details i.ifIndex w' i.ip).adminStatusDesc },
   w',
   [IfCall.setInterfaceUp i.ifIndex i.ip, IfCall.getInterfaceDetails i.ifIndex i.ip])

/-- The network `10.0.0.0/29` of the spec's scenarios. -/
def net29 : IPv4Network := ⟨ipNum 10 0 0 0, 29⟩

/-- The scenario hosts snapshot `[{ip: "10.0.0.1"}, {ip: "10.0.0.2"}]`. -/
def hostsTwo : List Host := [⟨"10.0.0.1", "h1"⟩, ⟨"10.0.0.2", "h2"⟩]

/-- A hosts snapshot covering the usable hosts `.1`–`.6` of `net29`. -/
def hostsFull6 : List Host :=
  [⟨"10.0.0.1", "a"⟩, ⟨"10.0.0.2", "b"⟩, ⟨"10.0.0.3", "c"⟩,
   ⟨"10.0.0.4", "d"⟩, ⟨"10.0.0.5", "e"⟩, ⟨"10.0.0.6", "f"⟩]

/-- The network `10.0.0.8/29`, whose network address does not end in
`.0`. -/
def net8 : IPv4Network := ⟨ipNum 10 0 0 8, 29⟩

/-- A hosts snapshot holding only `10.0.0.9` (inside `usable(net8)`). -/
def hostsNine : List Host := [⟨"10.0.0.9", "h9"⟩]

/-- A concrete scope over `net29` with the two-host snapshot. -/
def scopeA : IPScope :=
  ⟨17, ⟨"10.0.0.1", "10.0.0.6", none⟩, hostsTwo, "authA", "urlA", net29,
   "10.0.0.1", "10.0.0.6", none⟩

/-- A second scope equal to `scopeA` on `hosts` and `netaddr` but
differing in every other attribute. -/
def scopeB : IPScope :=
  ⟨99, ⟨"10.0.0.2", "10.0.0.5", some "childScope"⟩, hostsTwo, "authB", "urlB", net29,
   "10.0.0.2", "10.0.0.5", some "childScope"⟩

/-- A device environment in which no ip has a managed device: every
`get_dev_details` lookup reports `notFound`. -/
def envNoDev : DevEnv :=
  { get_dev_details := fun _ => Except.error ImcError.notFound
    get_all_interface_details := fun _ => []
    get_dev_vlans_by_ip := fun _ => []
    get_device_access_interfaces := fun _ => []
    get_trunk_interfaces := fun _ => []
    get_dev_alarms := fun _ => []
    get_dev_asset_details := fun _ => []
    get_dev_latest_run_config := fun _ => ""
    get_dev_latest_start_config := fun _ => ""
    get_ip_mac_arp_list_by_ip := fun _ => [] }

/-- A scope environment whose detail record has no `'assignedIpScope'`
key. -/
def envScopeNoChild : ScopeEnv :=
  { get_scope_id := fun _ => 21
    get_ip_scope_detail := fun _ => ⟨"10.0.0.1", "10.0.0.6", none⟩
    get_ip_scope_hosts := fun _ => hostsTwo }

/-- A scope environment whose detail record carries an
`'assignedIpScope'` key. -/
def envScopeChild : ScopeEnv :=
  { get_scope_id := fun _ => 22
    get_ip_scope_detail := fun _ => ⟨"10.0.0.1", "10.0.0.6", some "sub"⟩
    get_ip_scope_hosts := fun _ => hostsTwo }

theorem splitDot_no_dot : ∀ xs : List Char, '.' ∉ xs → splitDot xs = [xs]
  | [], _ => rfl
  | c :: cs, h => by
    have hc : ¬ (c = '.') := fun e => h (by simp [e])
    have hcs : '.' ∉ cs := fun m => h (List.mem_cons_of_mem _ m)
    simp [splitDot, hc, splitDot_no_dot cs hcs]

theorem splitDot_append : ∀ xs ys : List Char, '.' ∉ xs →
    splitDot (xs ++ '.' :: ys) = xs :: splitDot ys
  | [], ys, _ => by simp [splitDot]
  | c :: cs, ys, h => by
    have hc : ¬ (c = '.') := fun e => h (by simp [e])
    have hcs : '.' ∉ cs := fun m => h (List.mem_cons_of_mem _ m)
    simp [splitDot, hc, splitDot_append cs ys hcs]

set_option maxRecDepth 8000 in
theorem decRepr_no_dot : ∀ m, m < 256 → '.' ∉ decRepr m := by decide

set_option maxRecDepth 8000 in
theorem decRepr_eq_zero : ∀ m, m < 256 → (decRepr m = ['0'] ↔ m = 0) := by decide

theorem pyStr_last (n : Nat) :
    (splitDot (pyStrIPv4 n)).getLastD [] = decRepr (n % 256) := by
  have h256 : (0 : Nat) < 256 := by norm_num
  unfold pyStrIPv4
  rw [splitDot_append _ _ (decRepr_no_dot _ (Nat.mod_lt _ h256)),
    splitDot_append _ _ (decRepr_no_dot _ (Nat.mod_lt _ h256)),
    splitDot_append _ _ (decRepr_no_dot _ (Nat.mod_lt _ h256)),
    splitDot_no_dot _ (decRepr_no_dot _ (Nat.mod_lt _ h256))]
  rfl

theorem skip_iff (n : Nat) :
    (splitDot (pyStrIPv4 n)).getLastD [] = ['0'] ↔ n % 256 = 0 := by
  rw [pyStr_last]
  exact decRepr_eq_zero _ (Nat.mod_lt _ (by norm_num))

theorem nextfreeipLoop_sound (alloc : List Nat) :
    ∀ (l : List Nat) (ip : Nat), nextfreeipLoop alloc l = some ip →
      ip ∈ l ∧ (splitDot (pyStrIPv4 ip)).getLastD [] ≠ ['0'] ∧ ip ∉ alloc := by
  intro l
  induction l with
  | nil => intro ip h; simp [nextfreeipLoop] at h
  | cons a t ih =>
    intro ip h
    unfold nextfreeipLoop at h
    by_cases h1 : (splitDot (pyStrIPv4 a)).getLastD [] = ['0']
    · rw [if_pos h1] at h
      obtain ⟨m, s⟩ := ih ip h
      exact ⟨List.mem_cons_of_mem _ m, s⟩
    · rw [if_neg h1] at h
      by_cases h2 : a ∈ alloc
      · rw [if_pos h2] at h
        obtain ⟨m, s⟩ := ih ip h
        exact ⟨List.mem_cons_of_mem _ m, s⟩
      · rw [if_neg h2] at h
        injection h with he
        subst he
        exact ⟨List.mem_cons_self _ _, h1, h2⟩

theorem nextfreeipLoop_first (alloc : List Nat) :
    ∀ l : List Nat, l.Pairwise (· < ·) → ∀ ip, nextfreeipLoop alloc l = some ip →
      ∀ y ∈ l, y < ip →
        (splitDot (pyStrIPv4 y)).getLastD [] = ['0'] ∨ y ∈ alloc := by
  intro l
  induction l with
  | nil => intro _ ip h; simp [nextfreeipLoop] at h
  | cons a t ih =>
    intro hp ip h y hy hl
    have hat := (List.pairwise_cons.mp hp).1
    have hpt := (List.pairwise_cons.mp hp).2
    unfold nextfreeipLoop at h
    by_cases h1 : (splitDot (pyStrIPv4 a)).getLastD [] = ['0']
    · rw [if_pos h1] at h
      rcases List.mem_cons.mp hy with rfl | hyt
      · exact Or.inl h1
      · exact ih hpt ip h y hyt hl
    · rw [if_neg h1] at h
      by_cases h2 : a ∈ alloc
      · rw [if_pos h2] at h
        rcases List.mem_cons.mp hy with rfl | hyt
        · exact Or.inr h2
        · exact ih hpt ip h y hyt hl
      · rw [if_neg h2] at h
        injection h with he
        subst he
        rcases List.mem_cons.mp hy with rfl | hyt
        · exact absurd hl (lt_irrefl _)
        · exact absurd hl (lt_asymm (hat y hyt))

theorem parseAllHosts_mem :
    ∀ (hs : List Host) (alloc : List Nat), parseAllHosts hs = some alloc →
      ∀ h ∈ hs, ∃ p, parseIPv4 h.ip = some p ∧ p ∈ alloc := by
  intro hs
  induction hs with
  | nil => intro alloc _ h hh; simp at hh
  | cons a t ih =>
    intro alloc hp h hh
    unfold parseAllHosts at hp
    cases hpa : parseIPv4 a.ip with
    | none => rw [hpa] at hp; simp at hp
    | some p =>
      cases hpt : parseAllHosts t with
      | none => rw [hpa, hpt] at hp; simp at hp
      | some ps =>
        rw [hpa, hpt] at hp
        simp only [Option.some.injEq] at hp
        rcases List.mem_cons.mp hh with rfl | ht
        · exact ⟨p, hpa, by rw [← hp]; exact List.mem_cons_self _ _⟩
        · obtain ⟨q, hq1, hq2⟩ := ih ps hpt h ht
          exact ⟨q, hq1, by rw [← hp]; exact List.mem_cons_of_mem _ hq2⟩

theorem networkAddrs_pairwise (net : IPv4Network) :
    (networkAddrs net).Pairwise (· < ·) := by
  unfold networkAddrs
  exact List.Pairwise.map _ (fun a b h => Nat.add_lt_add_left h _)
    (List.pairwise_lt_range _)

/-- C1: on the scope network `10.0.0.8/29` with hosts snapshot
`[{ip: "10.0.0.9"}]` — a subset of `usable(N)` containing no address
ending in `.0` — `nextfreeip` returns `10.0.0.8`, the network (base)
address of the block, which lies outside `usable(N)`; the smallest
usable unallocated address would be `10.0.0.10`. -/
theorem nextfreeip_returns_network_address :
    nextfreeipOn net8 hostsNine = some (some (ipNum 10 0 0 8)) ∧
    ipNum 10 0 0 8 = net8.base := by
  constructor
  · decide
  · rfl

/-- C2: whenever `nextfreeip` returns an address, that address is not
present in the cached hosts snapshot (membership decided by parsed IP
equality) and its last octet is not 0. -/
theorem nextfreeip_avoids_hosts_and_dot0 (net : IPv4Network) (hosts : List Host) (ip : Nat)
    (h : nextfreeipOn net hosts = some (some ip)) :
    (∀ hst ∈ hosts, parseIPv4 hst.ip ≠ some ip) ∧ ip % 256 ≠ 0 := by
  unfold nextfreeipOn at h
  cases hp : parseAllHosts hosts with
  | none => rw [hp] at h; cases h
  | some alloc =>
    rw [hp] at h
    simp only [Option.some.injEq] at h
    obtain ⟨-, hskip, hmem⟩ := nextfreeipLoop_sound alloc (networkAddrs net) ip h
    constructor
    · intro hst hin heq
      obtain ⟨p, hp1, hp2⟩ := parseAllHosts_mem hosts alloc hp hst hin
      rw [hp1] at heq
      cases heq
      exact hmem hp2
    · intro h0
      exact hskip ((skip_iff ip).mpr h0)

/-- Witness for C2: instantiated at the spec scenario network
`10.0.0.0/29` with hosts `{10.0.0.1, 10.0.0.2}`, where the returned
address is `10.0.0.3`. -/
theorem nextfreeip_avoids_hosts_and_dot0_witness :
    (∀ hst ∈ hostsTwo, parseIPv4 hst.ip ≠ some (ipNum 10 0 0 3)) ∧
    ipNum 10 0 0 3 % 256 ≠ 0 :=
  nextfreeip_avoids_hosts_and_dot0 net29 hostsTwo (ipNum 10 0 0 3) (by decide)

/-- C3: on network `10.0.0.0/29` with a hosts snapshot covering
`.1`–`.6` (every usable host), `nextfreeip` does not return the empty
result: it returns `10.0.0.7`, the block's broadcast address. -/
theorem nextfreeip_exhausted_not_empty :
    nextfreeipOn net29 hostsFull6 = some (some (ipNum 10 0 0 7)) ∧
    nextfreeipOn net29 hostsFull6 ≠ some none := by
  constructor
  · decide
  · decide

/-- C4 counterexample: with every device lookup reporting `notFound`,
constructing a device for `10.1.1.1` does fail with `notFound`, but the
list of attributes assigned before the failure is nonempty (`self.auth`
and `self.url` are assigned before the lookup), refuting "before any
attribute of the object is set". -/
theorem imcdev_init_notfound_counterexample :
    (IMCDev.init envNoDev "10.1.1.1" "admin" "imcurl").2 = Except.error ImcError.notFound ∧
    (IMCDev.init envNoDev "10.1.1.1" "admin" "imcurl").1 ≠ [] := by
  constructor
  · rfl
  · decide

/-- C4 (amended): when the ip has no managed device, `IMCDev.__init__`
fails with the lookup's `NotFound` error after assigning exactly the
`auth` and `url` attributes (copied from its arguments) and before any
device-derived attribute is set. -/
theorem imcdev_init_notfound (env : DevEnv) (ip_address auth url : String) (e : ImcError)
    (h : env.get_dev_details ip_address = Except.error e) :
    IMCDev.init env ip_address auth url = (["auth", "url"], Except.error e) := by
  unfold IMCDev.init
  rw [h]

/-- Witness for the amended C4, at the concrete no-device environment. -/
theorem imcdev_init_notfound_witness :
    envNoDev.get_dev_details "10.1.1.1" = Except.error ImcError.notFound ∧
    IMCDev.init envNoDev "10.1.1.1" "admin" "imcurl"
      = (["auth", "url"], Except.error ImcError.notFound) :=
  ⟨rfl, imcdev_init_notfound envNoDev "10.1.1.1" "admin" "imcurl" ImcError.notFound rfl⟩

/-- C5: `addvlan` leaves every attribute of the device object — in
particular `vlans` — unchanged and issues exactly the one create call
scoped to `self.devid`; only a subsequent `getvlans` overwrites `vlans`
with the re-read list, which then contains the new VLAN record. -/
theorem addvlan_no_local_update (dev : IMCDev) (vlanid : Nat) (vlan_name : String)
    (w : VlanWorld) :
    (dev.addvlan vlanid vlan_name w).1 = dev ∧
    (dev.addvlan vlanid vlan_name w).1.vlans = dev.vlans ∧
    (dev.addvlan vlanid vlan_name w).2.2
      = [DevCall.createDevVlan vlanid vlan_name dev.devid] ∧
    ((dev.addvlan vlanid vlan_name w).1.getvlans (dev.addvlan vlanid vlan_name w).2.1).1.vlans
      = get_dev_vlans w dev.devid ++ [⟨vlanid, vlan_name⟩] ∧
    (⟨vlanid, vlan_name⟩ : VlanRec) ∈
      ((dev.addvlan vlanid vlan_name w).1.getvlans (dev.addvlan vlanid vlan_name w).2.1).1.vlans := by
  have hv : ((dev.addvlan vlanid vlan_name w).1.getvlans
      (dev.addvlan vlanid vlan_name w).2.1).1.vlans
      = get_dev_vlans w dev.devid ++ [⟨vlanid, vlan_name⟩] := by
    show get_dev_vlans (create_dev_vlan vlanid vlan_name w dev.devid) dev.devid = _
    unfold get_dev_vlans create_dev_vlan
    simp
  refine ⟨rfl, rfl, rfl, hv, ?_⟩
  rw [hv]
  exact List.mem_append_right _ (List.mem_singleton_self _)

/-- C6: `down` and `up` each issue exactly one state-change call for
`self.ifIndex` scoped to `self.ip` followed by one re-read of the same
interface, and overwrite only the `adminstatus` attribute with the
re-read `adminStatusDesc` (which reflects the state just set); every
other attribute keeps its old value. -/
theorem interface_updown_frame (i : IMCInterface) (w : IfWorld) :
    (i.down w).1 = { i with adminstatus :=
      (get_interface_details i.ifIndex (set_interface_down i.ifIndex w i.ip) i.ip).adminStatusDesc } ∧
    (i.down w).2.2
      = [IfCall.setInterfaceDown i.ifIndex i.ip, IfCall.getInterfaceDetails i.ifIndex i.ip] ∧
    (i.down w).1.adminstatus = "Down" ∧
    (i.up w).1 = { i with adminstatus :=
      (get_interface_details i.ifIndex (set_interface_up i.ifIndex w i.ip) i.ip).adminStatusDesc } ∧
    (i.up w).2.2
      = [IfCall.setInterfaceUp i.ifIndex i.ip, IfCall.getInterfaceDetails i.ifIndex i.ip] ∧
    (i.up w).1.adminstatus = "Up" := by
  refine ⟨rfl, rfl, ?_, rfl, rfl, ?_⟩
  · show (get_interface_details i.ifIndex (set_interface_down i.ifIndex w i.ip) i.ip).adminStatusDesc = "Down"
    unfold get_interface_details set_interface_down
    simp
  · show (get_interface_details i.ifIndex (set_interface_up i.ifIndex w i.ip) i.ip).adminStatusDesc = "Up"
    unfold get_interface_details set_interface_up
    simp

/-- C7: `allocate_ip` returns the scope unchanged and issues exactly one
`add_scope_ip` call carrying the (unvalidated) host ip, name,
description and the scope's resolved id; `deallocate_ip` returns the
scope unchanged and issues exactly one `delete_host_from_segment` call
carrying the host ip and the scope's network address rather than its
id.  Both equations hold for every `hostipaddress`, including strings
outside the scope's bounds. -/
theorem allocate_deallocate_frame (s : IPScope) (hostipaddress name description : String) :
    IPScope.allocate_ip s hostipaddress name description
      = (s, [ScopeCall.addScopeIp hostipaddress name description s.id]) ∧
    IPScope.deallocate_ip s hostipaddress
      = (s, [ScopeCall.deleteHostFromSegment hostipaddress s.netaddr]) :=
  ⟨rfl, rfl⟩

/-- C8: `nextfreeip` leaves the scope object unchanged, issues no remote
call, and its result is a function of the cached `hosts` and `netaddr`
attributes alone: two scopes agreeing on those two attributes get equal
results. -/
theorem nextfreeip_readonly_deterministic (s t : IPScope)
    (hh : s.hosts = t.hosts) (hn : s.netaddr = t.netaddr) :
    (IPScope.nextfreeip s).2.1 = s ∧ (IPScope.nextfreeip s).2.2 = [] ∧
    (IPScope.nextfreeip s).1 = (IPScope.nextfreeip t).1 := by
  refine ⟨rfl, rfl, ?_⟩
  show nextfreeipOn s.netaddr s.hosts = nextfreeipOn t.netaddr t.hosts
  rw [hh, hn]

/-- Witness for C8: two concrete scopes sharing `hosts` and `netaddr`
but differing in id, details, auth, url, start/end ip and child. -/
theorem nextfreeip_readonly_deterministic_witness :
    (IPScope.nextfreeip scopeA).2.1 = scopeA ∧ (IPScope.nextfreeip scopeA).2.2 = [] ∧
    (IPScope.nextfreeip scopeA).1 = (IPScope.nextfreeip scopeB).1 :=
  nextfreeip_readonly_deterministic scopeA scopeB rfl rfl

/-- C9: the scan covers the whole CIDR block: a returned address is an
element of the block whose last octet is nonzero and which is not
allocated, and every smaller block element was skipped only because its
last octet is 0 or it was allocated; consequently on `10.0.0.0/29` with
`.1`–`.6` allocated the scan returns `10.0.0.7`, the broadcast address
`base + 2^(32-29) - 1`, which lies outside the usable host range. -/
theorem nextfreeip_scans_full_block :
    (∀ (net : IPv4Network) (alloc : List Nat) (ip : Nat),
        nextfreeipLoop alloc (networkAddrs net) = some ip →
          ip ∈ networkAddrs net ∧ ip % 256 ≠ 0 ∧ ip ∉ alloc ∧
          ∀ y ∈ networkAddrs net, y < ip → y % 256 = 0 ∨ y ∈ alloc) ∧
    nextfreeipOn net29 hostsFull6 = some (some (ipNum 10 0 0 7)) ∧
    ipNum 10 0 0 7 = net29.base + 2 ^ (32 - net29.prefixlen) - 1 := by
  refine ⟨?_, by decide, by decide⟩
  intro net alloc ip h
  obtain ⟨hm, hskip, hal⟩ := nextfreeipLoop_sound alloc _ ip h
  refine ⟨hm, fun h0 => hskip ((skip_iff ip).mpr h0), hal, ?_⟩
  intro y hy hlt
  rcases nextfreeipLoop_first alloc _ (networkAddrs_pairwise net) ip h y hy hlt with hs | ha
  · exact Or.inl ((skip_iff y).mp hs)
  · exact Or.inr ha

/-- Witness for C9: instantiated on `10.0.0.0/29` with nothing
allocated, where the scan returns `10.0.0.1`. -/
theorem nextfreeip_scans_full_block_witness :
    ipNum 10 0 0 1 ∈ networkAddrs net29 ∧ ipNum 10 0 0 1 % 256 ≠ 0 ∧
    ipNum 10 0 0 1 ∉ ([] : List Nat) ∧
    ∀ y ∈ networkAddrs net29, y < ipNum 10 0 0 1 → y % 256 = 0 ∨ y ∈ ([] : List Nat) :=
  nextfreeip_scans_full_block.1 net29 [] (ipNum 10 0 0 1) (by decide)

/-- C10: after construction, the scope's `child` attribute exists
exactly when the `'assignedIpScope'` key is present in the detail
record fetched at construction time; when absent, accessing `child`
fails with `AttributeError` instead of yielding a null value, and when
present it yields the key's value. -/
theorem ipscope_child_presence (env : ScopeEnv) (netaddr : IPv4Network) (auth url : String) :
    ((IPScope.init env netaddr auth url).child.isSome ↔
      ((env.get_ip_scope_detail (env.get_scope_id netaddr)).assignedIpScope).isSome) ∧
    (((env.get_ip_scope_detail (env.get_scope_id netaddr)).assignedIpScope) = none →
      (IPScope.init env netaddr auth url).getChild = Except.error AttrError.attributeError) ∧
    (∀ c, ((env.get_ip_scope_detail (env.get_scope_id netaddr)).assignedIpScope) = some c →
      (IPScope.init env netaddr auth url).getChild = Except.ok c) := by
  cases hd : (env.get_ip_scope_detail (env.get_scope_id netaddr)).assignedIpScope with
  | none =>
    refine ⟨by simp [IPScope.init, hd], fun _ => ?_, fun c hc => absurd hc (by simp)⟩
    simp [IPScope.init, IPScope.getChild, hd]
  | some c' =>
    refine ⟨by simp [IPScope.init, hd], fun hc => absurd hc (by simp), fun c hc => ?_⟩
    obtain rfl : c' = c := Option.some.inj hc
    simp [IPScope.init, IPScope.getChild, hd]

/-- Witness for C10: at a concrete environment whose detail record
lacks the `'assignedIpScope'` key, accessing `child` raises. -/
theorem ipscope_child_presence_witness :
    (IPScope.init envScopeNoChild net29 "admin" "imcurl").getChild
      = Except.error AttrError.attributeError :=
  (ipscope_child_presence envScopeNoChild net29 "admin" "imcurl").2.1 rfl
